import Mathlib

/-!
# go-natstore: a shallow embedding of the messaging wrappers

The Go package `natstore` wraps a NATS connection (`Basic`) and a JetStream
context (`JSClient`).  Every wrapper is a short sequence of calls on external
collaborators (the `*nats.Conn`, the `jetstream.JetStream` interface,
`encoding/json`, `log/slog`) glued together by `handleError`.

The embedding keeps that shape:

* a Go `error` is `Option String` (`nil`, or the text `Error()` returns);
* a Go pointer or interface that may be `nil` is an `Option`;
* the collaborators are records of response functions (stubs), and every call
  made on one of them is appended to the list of events of the run;
* a run either returns a value or panics (a method that reads a field of a
  `nil` receiver, a method called on a `nil` interface).
-/

namespace Natstore

/-! ## Go values -/

/-- A Go `error`: `none` is `nil`, `some t` is a non-nil error whose `Error()` is `t`. -/
abbrev GoError := Option String

/-- A `[]byte`. -/
abbrev Bytes := List Nat

/-- The identity of a `context.Context`; the wrappers only pass it along. -/
abbrev Context := Nat

/-- The identity of a message handler (`func(msg ...)`); the wrappers only pass it along. -/
abbrev Handler := Nat

/-- A `time.Duration`, in nanoseconds. -/
abbrev Duration := Int

/-- The constant `time.Millisecond`. -/
def Millisecond : Duration := 1000000

/-- The constant `time.Second`. -/
def Second : Duration := 1000000000

/-- A `*slog.Logger` that is not `nil`, known by its identity. -/
structure Logger where
  id : Nat
  deriving DecidableEq, Repr

/-- The package variable `defaultLogger` (config.go, line 12). -/
def defaultLogger : Logger := ⟨0⟩

/-- The enumeration `jetstream.AckPolicy`; `AckExplicitPolicy` is its zero value. -/
inductive AckPolicy where
  | AckExplicitPolicy
  | AckAllPolicy
  | AckNonePolicy
  deriving DecidableEq, Repr

/-- The fields of `jetstream.ConsumerConfig` that the package names, and `Durable`,
the one field its only option writes.  The other fields of the library record are
never mentioned by the package. -/
structure ConsumerConfig where
  Durable : String
  AckPolicy : AckPolicy
  MaxDeliver : Int
  BackOff : List Duration
  FilterSubject : String
  deriving DecidableEq, Repr

/-- The fields of `jetstream.StreamConfig` used by the package's callers. -/
structure StreamConfig where
  Name : String
  Subjects : List String
  deriving DecidableEq, Repr

/-! ## Runs: events and outcomes -/

/-- One call made on a collaborator.  `α` is the type of the payloads (`any`). -/
inductive Event (α : Type) where
  | LoggerError (logger : Logger) (msg : String)
  | Marshal (data : α)
  | Unmarshal (data : Bytes) (ptr : α)
  | ConnPublish (subject : String) (data : Bytes)
  | ConnRequest (subj : String) (data : Bytes) (timeout : Duration)
  | ConnSubscribe (subject : String) (handler : Handler)
  | CreateOrUpdateStream (ctx : Context) (cfg : StreamConfig)
  | JSPublish (ctx : Context) (subject : String) (data : Bytes)
  | CreateOrUpdateConsumer (ctx : Context) (stream : String) (cfg : ConsumerConfig)
  | ConsumerConsume (handler : Handler)
  deriving DecidableEq, Repr

/-- How a Go call ends: it returns a value, or it panics. -/
inductive Outcome (ρ : Type) where
  | returned (r : ρ)
  | panicked
  deriving DecidableEq, Repr

/-- A run of a Go function: the collaborator calls it made, in order, and how it ended. -/
structure Run (α ρ : Type) where
  events : List (Event α)
  out : Outcome ρ
  deriving DecidableEq, Repr

/-- A run that makes no call and returns `r`. -/
def Run.ret {α ρ : Type} (r : ρ) : Run α ρ := ⟨[], .returned r⟩

/-- Sequencing: the continuation runs only if the first run returned. -/
def Run.andThen {α ρ σ : Type} (x : Run α ρ) (f : ρ → Run α σ) : Run α σ :=
  match x.out with
  | .panicked => ⟨x.events, .panicked⟩
  | .returned r => ⟨x.events ++ (f r).events, (f r).out⟩

/-- The run wrote a log entry: it called `Error` on a logger. -/
def Event.isLog {α : Type} : Event α → Bool
  | .LoggerError _ _ => true
  | _ => false

/-- The run contacted the broker: a call on the connection, on the JetStream
context or on a consumer. -/
def Event.isBroker {α : Type} : Event α → Bool
  | .ConnPublish _ _ => true
  | .ConnRequest _ _ _ => true
  | .ConnSubscribe _ _ => true
  | .CreateOrUpdateStream _ _ => true
  | .JSPublish _ _ _ => true
  | .CreateOrUpdateConsumer _ _ _ => true
  | .ConsumerConsume _ => true
  | _ => false

/-- The run called the JetStream collaborator (the context or one of its consumers). -/
def Event.isJetStream {α : Type} : Event α → Bool
  | .CreateOrUpdateStream _ _ => true
  | .JSPublish _ _ _ => true
  | .CreateOrUpdateConsumer _ _ _ => true
  | .ConsumerConsume _ => true
  | _ => false

/-! ## Strings -/

/-- Whether `sub` is an initial segment of `s`. -/
def startsWith : List Char → List Char → Bool
  | _, [] => true
  | [], _ :: _ => false
  | c :: s, d :: sub => c == d && startsWith s sub

/-- Whether `sub` occurs in `s` as a contiguous block. -/
def containsChars : List Char → List Char → Bool
  | [], sub => startsWith [] sub
  | c :: s, sub => startsWith (c :: s) sub || containsChars s sub

/-- The library function `strings.Contains`. -/
def stringsContains (s substr : String) : Bool :=
  containsChars s.data substr.data

/-- The signature looked for by `handleError` (config.go, line 74). -/
def noResponders : String := "no responders available for request"

/-! ## config.go -/

/-- The package variable `ErrNilNatsConnObject`, as its text. -/
def ErrNilNatsConnObject : String :=
  "nats connection error: nats connection object not returned"

/-- The package variable `ErrNilLoggerObject`, as its text. -/
def ErrNilLoggerObject : String := "nats: logger not initialised"

/-- The method `(*slog.Logger).Error`.  It reads the handler of its receiver, so on a
`nil` receiver it panics; otherwise the call is recorded. -/
def Logger.Error {α : Type} (logger : Option Logger) (msg : String) : Run α Unit :=
  match logger with
  | none => ⟨[], .panicked⟩
  | some l => ⟨[.LoggerError l msg], .returned ()⟩

/-- The function `handleError` (config.go, lines 72-84).  `notEnabled` is the text of
the library error `nats.ErrJetStreamNotEnabled`. -/
def handleError {α : Type} (notEnabled : String) (location : String) (err : GoError)
    (logger : Option Logger) : Run α GoError :=
  match err with
  | some e =>
    if stringsContains e noResponders then
      (Logger.Error logger (location ++ ": " ++ notEnabled)).andThen fun _ =>
        Run.ret (some (location ++ ": " ++ notEnabled))
    else
      (Logger.Error logger (location ++ ": " ++ e)).andThen fun _ =>
        Run.ret (some (location ++ ": " ++ e))
  | none => Run.ret none

/-! ## The collaborators -/

/-- The two functions of `encoding/json` the package calls. -/
structure Codec (α : Type) where
  Marshal : α → Except String Bytes
  Unmarshal : Bytes → α → GoError

/-- The methods of a `*nats.Conn` the package calls.  `Request` answers with the
data of the reply message. -/
structure Conn where
  Publish : String → Bytes → GoError
  Request : String → Bytes → Duration → Except String Bytes
  Subscribe : String → Handler → GoError

/-- The method of a `jetstream.Consumer` the package calls. -/
structure Consumer where
  Consume : Handler → GoError

/-- The methods of the `jetstream.JetStream` interface the package calls. -/
structure JetStream where
  CreateOrUpdateStream : Context → StreamConfig → GoError
  Publish : Context → String → Bytes → GoError
  CreateOrUpdateConsumer : Context → String → ConsumerConfig → Except String Consumer

/-- The call `json.Marshal(data)`. -/
def jsonMarshal {α : Type} (json : Codec α) (data : α) : Run α (Except String Bytes) :=
  ⟨[.Marshal data], .returned (json.Marshal data)⟩

/-- The call `json.Unmarshal(data, ptr)`. -/
def jsonUnmarshal {α : Type} (json : Codec α) (data : Bytes) (ptr : α) : Run α GoError :=
  ⟨[.Unmarshal data ptr], .returned (json.Unmarshal data ptr)⟩

/-- The call `nconn.Publish(subject, data)` on a connection that may be `nil`. -/
def Conn.callPublish {α : Type} (nconn : Option Conn) (subject : String) (data : Bytes) :
    Run α GoError :=
  match nconn with
  | none => ⟨[], .panicked⟩
  | some c => ⟨[.ConnPublish subject data], .returned (c.Publish subject data)⟩

/-- The call `nconn.Request(subj, data, timeout)` on a connection that may be `nil`. -/
def Conn.callRequest {α : Type} (nconn : Option Conn) (subj : String) (data : Bytes)
    (timeout : Duration) : Run α (Except String Bytes) :=
  match nconn with
  | none => ⟨[], .panicked⟩
  | some c => ⟨[.ConnRequest subj data timeout], .returned (c.Request subj data timeout)⟩

/-- The call `nconn.Subscribe(subject, handler)` on a connection that may be `nil`. -/
def Conn.callSubscribe {α : Type} (nconn : Option Conn) (subject : String)
    (handler : Handler) : Run α GoError :=
  match nconn with
  | none => ⟨[], .panicked⟩
  | some c => ⟨[.ConnSubscribe subject handler], .returned (c.Subscribe subject handler)⟩

/-- The call `jsCtx.CreateOrUpdateStream(ctx, cfg)` on an interface that may be `nil`. -/
def JetStream.callCreateOrUpdateStream {α : Type} (jsCtx : Option JetStream) (ctx : Context)
    (cfg : StreamConfig) : Run α GoError :=
  match jsCtx with
  | none => ⟨[], .panicked⟩
  | some js => ⟨[.CreateOrUpdateStream ctx cfg], .returned (js.CreateOrUpdateStream ctx cfg)⟩

/-- The call `jsCtx.Publish(ctx, subject, data)` on an interface that may be `nil`. -/
def JetStream.callPublish {α : Type} (jsCtx : Option JetStream) (ctx : Context)
    (subject : String) (data : Bytes) : Run α GoError :=
  match jsCtx with
  | none => ⟨[], .panicked⟩
  | some js => ⟨[.JSPublish ctx subject data], .returned (js.Publish ctx subject data)⟩

/-- The call `jsCtx.CreateOrUpdateConsumer(ctx, stream, cfg)` on an interface that may
be `nil`. -/
def JetStream.callCreateOrUpdateConsumer {α : Type} (jsCtx : Option JetStream)
    (ctx : Context) (stream : String) (cfg : ConsumerConfig) :
    Run α (Except String Consumer) :=
  match jsCtx with
  | none => ⟨[], .panicked⟩
  | some js =>
    ⟨[.CreateOrUpdateConsumer ctx stream cfg],
      .returned (js.CreateOrUpdateConsumer ctx stream cfg)⟩

/-- The call `consumer.Consume(handler)`. -/
def Consumer.callConsume {α : Type} (consumer : Consumer) (handler : Handler) :
    Run α GoError :=
  ⟨[.ConsumerConsume handler], .returned (consumer.Consume handler)⟩

/-! ## n_jetstream.go -/

/-- The type `JSClient` (n_jetstream.go, lines 16-20). -/
structure JSClient where
  jsCtx : Option JetStream
  natsConnection : Option Conn
  logger : Option Logger

/-- The function `NewJSClient` (lines 23-40).  `jetstreamNew` is the library function
`jetstream.New`. -/
def NewJSClient (jetstreamNew : Conn → Except String JetStream) (natsConn : Option Conn) :
    Option JSClient × GoError :=
  match natsConn with
  | none => (none, some "nats connection error: No nats connection object returned")
  | some nc =>
    match jetstreamNew nc with
    | .error err => (none, some ("error creating jetstream context: " ++ err))
    | .ok jsCtx => (some ⟨some jsCtx, some nc, some defaultLogger⟩, none)

/-- The method `JSClient.WithLogger` (lines 43-46). -/
def JSClient.WithLogger (s : JSClient) (logger : Option Logger) : JSClient :=
  { s with logger := logger }

/-- The method `JSClient.NatsJS` (lines 53-55). -/
def JSClient.NatsJS (s : JSClient) : Option JetStream := s.jsCtx

/-- The method `JSClient.checkConnections` (lines 59-73). -/
def JSClient.checkConnections (s : JSClient) : GoError :=
  if s.natsConnection.isNone then
    some ErrNilNatsConnObject
  else if s.jsCtx.isNone then
    some "jetstream connection not established"
  else if s.logger.isNone then
    some ErrNilLoggerObject
  else
    none

/-- The method `JSClient.StreamCreateOrUpdate` (lines 77-88). -/
def JSClient.StreamCreateOrUpdate {α : Type} (notEnabled : String) (s : JSClient)
    (ctx : Context) (streamConfig : StreamConfig) : Run α GoError :=
  match s.checkConnections with
  | some err => handleError notEnabled "stream create update" (some err) s.logger
  | none =>
    (JetStream.callCreateOrUpdateStream s.jsCtx ctx streamConfig).andThen fun err =>
      match err with
      | some e => handleError notEnabled "stream create update" (some e) s.logger
      | none => Run.ret none

/-- The method `JSClient.Publish` (lines 92-108). -/
def JSClient.Publish {α : Type} (notEnabled : String) (json : Codec α) (s : JSClient)
    (ctx : Context) (subject : String) (data : α) : Run α GoError :=
  match s.checkConnections with
  | some err => handleError notEnabled "publish" (some err) s.logger
  | none =>
    (jsonMarshal json data).andThen fun r =>
      match r with
      | .error err => handleError notEnabled "publish" (some err) s.logger
      | .ok dataBytes =>
        (JetStream.callPublish s.jsCtx ctx subject dataBytes).andThen fun err =>
          match err with
          | some e => handleError notEnabled "publish" (some e) s.logger
          | none => Run.ret none

/-- The type `ConsumerConfigOption` (line 151): a function that updates a consumer
configuration in place, or `nil`. -/
abbrev ConsumerConfigOption := Option (ConsumerConfig → ConsumerConfig)

/-- The function `WithDurableName` (lines 155-159). -/
def WithDurableName (name : String) : ConsumerConfigOption :=
  some fun o => { o with Durable := name }

/-- The configuration literal of `Consume` (lines 120-128); `Durable` keeps its zero
value. -/
def baselineConfig (subject : String) : ConsumerConfig :=
  { AckPolicy := .AckExplicitPolicy
    FilterSubject := subject
    BackOff := [5 * Second, 10 * Second]
    MaxDeliver := 4
    Durable := "" }

/-- The loop of `Consume` over its options (lines 130-134). -/
def applyOptions : List ConsumerConfigOption → ConsumerConfig → ConsumerConfig
  | [], consumerConfig => consumerConfig
  | opt :: opts, consumerConfig =>
    match opt with
    | some f => applyOptions opts (f consumerConfig)
    | none => applyOptions opts consumerConfig

/-- The method `JSClient.Consume` (lines 113-147). -/
def JSClient.Consume {α : Type} (notEnabled : String) (s : JSClient) (ctx : Context)
    (streamName : String) (subject : String) (handler : Handler)
    (opts : List ConsumerConfigOption) : Run α GoError :=
  match s.checkConnections with
  | some err => handleError notEnabled "consume" (some err) s.logger
  | none =>
    let consumerConfig := applyOptions opts (baselineConfig subject)
    (JetStream.callCreateOrUpdateConsumer s.jsCtx ctx streamName consumerConfig).andThen
      fun r =>
        match r with
        | .error err => handleError notEnabled "consume" (some err) s.logger
        | .ok consumer =>
          (Consumer.callConsume consumer handler).andThen fun err =>
            match err with
            | some e => handleError notEnabled "consume" (some e) s.logger
            | none => Run.ret none

/-! ## n_basic.go -/

/-- The package variable `DefaultRequestTimeout` (n_basic.go, line 13). -/
def DefaultRequestTimeout : Duration := 10 * Millisecond

/-- The type `Basic` (lines 16-19). -/
structure Basic where
  nconn : Option Conn
  logger : Option Logger

/-- The function `NewBasic` (lines 22-27). -/
def NewBasic (natsConn : Option Conn) : Basic :=
  { nconn := natsConn, logger := some defaultLogger }

/-- The method `Basic.WithLogger` (lines 30-33). -/
def Basic.WithLogger (b : Basic) (logger : Option Logger) : Basic :=
  { b with logger := logger }

/-- The method `Basic.checkConnections` (lines 101-111). -/
def Basic.checkConnections (b : Basic) : GoError :=
  if b.nconn.isNone then
    some ErrNilNatsConnObject
  else if b.logger.isNone then
    some ErrNilLoggerObject
  else
    none

/-- The method `Basic.Publish` (lines 41-60). -/
def Basic.Publish {α : Type} (notEnabled : String) (json : Codec α) (b : Basic)
    (_ctx : Context) (subject : String) (data : α) : Run α GoError :=
  match b.checkConnections with
  | some err => handleError notEnabled "publish" (some err) b.logger
  | none =>
    (jsonMarshal json data).andThen fun r =>
      match r with
      | .error err => handleError notEnabled "publish" (some err) b.logger
      | .ok dataByte =>
        (Conn.callPublish b.nconn subject dataByte).andThen fun err =>
          match err with
          | some e => handleError notEnabled "publish" (some e) b.logger
          | none => Run.ret none

/-- The method `Basic.Request` (lines 63-86). -/
def Basic.Request {α : Type} (notEnabled : String) (json : Codec α) (b : Basic)
    (_ctx : Context) (subj : String) (requestData : α) (responseDataPtr : α) :
    Run α GoError :=
  match b.checkConnections with
  | some err => Run.ret (some err)
  | none =>
    (jsonMarshal json requestData).andThen fun r =>
      match r with
      | .error err => handleError notEnabled "request" (some err) b.logger
      | .ok dataByte =>
        (Conn.callRequest b.nconn subj dataByte DefaultRequestTimeout).andThen fun m =>
          match m with
          | .error err => handleError notEnabled "request" (some err) b.logger
          | .ok msgData =>
            (jsonUnmarshal json msgData responseDataPtr).andThen fun err =>
              match err with
              | some e => handleError notEnabled "request" (some e) b.logger
              | none => Run.ret none

/-- The method `Basic.Subscribe` (lines 89-98).  It has no result: what `handleError`
returns is dropped. -/
def Basic.Subscribe {α : Type} (notEnabled : String) (b : Basic) (subject : String)
    (handler : Handler) : Run α Unit :=
  match b.checkConnections with
  | some err =>
    (handleError notEnabled "subscribe" (some err) b.logger).andThen fun _ => Run.ret ()
  | none =>
    (Conn.callSubscribe b.nconn subject handler).andThen fun err =>
      (handleError notEnabled "subscribe" err b.logger).andThen fun _ => Run.ret ()

/-! ## connect.go -/

/-- An option of the library (`nats.Option`): the connection name `nats.Name` sets, or
any other option, known by its identity. -/
inductive NatsOption where
  | Name (name : String)
  | other (id : Nat)
  deriving DecidableEq, Repr

/-- The method `(*nats.Conn).IsConnected`.  It locks the mutex of its receiver, so on a
`nil` receiver it panics; `connected` is what the library answers for a connection. -/
def Conn.callIsConnected (connected : Conn → Bool) (natsConn : Option Conn) : Outcome Bool :=
  match natsConn with
  | none => .panicked
  | some c => .returned (connected c)

/-- The text of `fmt.Errorf("nats connection error: %w", err)`; for a `nil` operand the
verb `%w` prints `%!w(<nil>)`, and the error made is non-nil all the same. -/
def connectionErrorText (err : GoError) : String :=
  match err with
  | some e => "nats connection error: " ++ e
  | none => "nats connection error: %!w(<nil>)"

/-- The function `Connect` (connect.go, lines 29-42).  `natsConnect` is the library
function `nats.Connect`, with the pair it returns. -/
def Connect (natsConnect : String → List NatsOption → Option Conn × GoError)
    (connected : Conn → Bool) (serverURL : String) (connName : String)
    (options : List NatsOption) : Outcome (Option Conn × GoError) :=
  let options := options ++ [NatsOption.Name connName]
  match natsConnect serverURL options with
  | (natsConn, err) =>
    match err with
    | some _ => .returned (none, some (connectionErrorText err))
    | none =>
      match Conn.callIsConnected connected natsConn with
      | .panicked => .panicked
      | .returned isConnected =>
        if !isConnected then
          .returned (none, some (connectionErrorText err))
        else if natsConn.isNone then
          .returned (none, some "nats connection error: No nats connection object returned")
        else
          .returned (natsConn, none)

/-- The pairs `nats.Connect` returns: no connection together with an error when the
attempt failed, a connection together with no error when it did not.  (With
`RetryOnFailedConnect` the connection returned may still be reconnecting.) -/
def isConnectOutcome : Option Conn × GoError → Bool
  | (none, some _) => true
  | (some _, none) => true
  | _ => false

/-! ## Vocabulary of the specification -/

/-- The configuration the specification describes: the non-nil options, in the order
supplied, folded from the left over the starting configuration. -/
def foldNonNilOptions (opts : List ConsumerConfigOption) (base : ConsumerConfig) :
    ConsumerConfig :=
  (opts.filterMap id).foldl (fun cfg f => f cfg) base

/-- The event is a call of `CreateOrUpdateConsumer`. -/
def Event.isCreateOrUpdateConsumer {α : Type} : Event α → Bool
  | .CreateOrUpdateConsumer _ _ _ => true
  | _ => false

/-- The event is a call of the JetStream `Publish`. -/
def Event.isJSPublish {α : Type} : Event α → Bool
  | .JSPublish _ _ _ => true
  | _ => false

/-- The event is a call of `json.Marshal`. -/
def Event.isMarshal {α : Type} : Event α → Bool
  | .Marshal _ => true
  | _ => false

/-- The text `handleError` gives the error it returns for a non-nil error of text `e`. -/
def taggedText (notEnabled location e : String) : String :=
  if stringsContains e noResponders then location ++ ": " ++ notEnabled
  else location ++ ": " ++ e

/-- A call of one of the six public operations of the two clients, with its
arguments. -/
inductive Op (α : Type) where
  | BasicPublish (b : Basic) (ctx : Context) (subject : String) (data : α)
  | BasicRequest (b : Basic) (ctx : Context) (subj : String) (requestData : α)
      (responseDataPtr : α)
  | BasicSubscribe (b : Basic) (subject : String) (handler : Handler)
  | StreamCreateOrUpdate (s : JSClient) (ctx : Context) (streamConfig : StreamConfig)
  | JSPublish (s : JSClient) (ctx : Context) (subject : String) (data : α)
  | Consume (s : JSClient) (ctx : Context) (streamName : String) (subject : String)
      (handler : Handler) (opts : List ConsumerConfigOption)

/-- What the caller of a public operation sees: the run of the method, ending in the
`error` the method returns.  `Subscribe` has no result, so its caller holds no error
(`nil`) whenever the call returns. -/
def Op.run {α : Type} (notEnabled : String) (json : Codec α) : Op α → Run α GoError
  | .BasicPublish b ctx subject data => Basic.Publish notEnabled json b ctx subject data
  | .BasicRequest b ctx subj requestData responseDataPtr =>
    Basic.Request notEnabled json b ctx subj requestData responseDataPtr
  | .BasicSubscribe b subject handler =>
    (Basic.Subscribe notEnabled b subject handler).andThen fun _ => Run.ret none
  | .StreamCreateOrUpdate s ctx streamConfig =>
    JSClient.StreamCreateOrUpdate notEnabled s ctx streamConfig
  | .JSPublish s ctx subject data => JSClient.Publish notEnabled json s ctx subject data
  | .Consume s ctx streamName subject handler opts =>
    JSClient.Consume notEnabled s ctx streamName subject handler opts

/-- The logger of the client the operation is called on. -/
def Op.logger {α : Type} : Op α → Option Logger
  | .BasicPublish b _ _ _ => b.logger
  | .BasicRequest b _ _ _ _ => b.logger
  | .BasicSubscribe b _ _ => b.logger
  | .StreamCreateOrUpdate s _ _ => s.logger
  | .JSPublish s _ _ _ => s.logger
  | .Consume s _ _ _ _ _ => s.logger

/-- The operation is `Basic.Subscribe`. -/
def Op.isSubscribe {α : Type} : Op α → Bool
  | .BasicSubscribe _ _ _ => true
  | _ => false

/-- The operation is `Basic.Request`. -/
def Op.isRequest {α : Type} : Op α → Bool
  | .BasicRequest _ _ _ _ _ => true
  | _ => false

/-- The first failure among the steps of an operation, as the specification lists
them: the precondition check, then the JSON step, then the call on the connection or
on the JetStream context (for `Request` the decoding of the reply comes last, for
`Consume` the activation of the consumer).  `none` when every step succeeds.  A step
whose collaborator is missing is not reached: the precondition check has failed
before it. -/
def Op.firstFailure {α : Type} (json : Codec α) : Op α → GoError
  | .BasicPublish b _ subject data =>
    match b.checkConnections, json.Marshal data, b.nconn with
    | some e, _, _ => some e
    | none, .error e, _ => some e
    | none, .ok dataByte, some nc => nc.Publish subject dataByte
    | none, .ok _, none => none
  | .BasicRequest b _ subj requestData responseDataPtr =>
    match b.checkConnections, json.Marshal requestData, b.nconn with
    | some e, _, _ => some e
    | none, .error e, _ => some e
    | none, .ok dataByte, some nc =>
      match nc.Request subj dataByte DefaultRequestTimeout with
      | .error e => some e
      | .ok msgData => json.Unmarshal msgData responseDataPtr
    | none, .ok _, none => none
  | .BasicSubscribe b subject handler =>
    match b.checkConnections, b.nconn with
    | some e, _ => some e
    | none, some nc => nc.Subscribe subject handler
    | none, none => none
  | .StreamCreateOrUpdate s ctx streamConfig =>
    match s.checkConnections, s.jsCtx with
    | some e, _ => some e
    | none, some js => js.CreateOrUpdateStream ctx streamConfig
    | none, none => none
  | .JSPublish s ctx subject data =>
    match s.checkConnections, json.Marshal data, s.jsCtx with
    | some e, _, _ => some e
    | none, .error e, _ => some e
    | none, .ok dataBytes, some js => js.Publish ctx subject dataBytes
    | none, .ok _, none => none
  | .Consume s ctx streamName subject handler opts =>
    match s.checkConnections, s.jsCtx with
    | some e, _ => some e
    | none, some js =>
      match js.CreateOrUpdateConsumer ctx streamName
          (applyOptions opts (baselineConfig subject)) with
      | .error e => some e
      | .ok consumer => consumer.Consume handler
    | none, none => none

/-! ## Stand-ins for the collaborators -/

/-- A JetStream context that accepts every call, as the embedded server of the tests
does. -/
def acceptingJetStream : JetStream :=
  { CreateOrUpdateStream := fun _ _ => none
    Publish := fun _ _ _ => none
    CreateOrUpdateConsumer := fun _ _ _ => .ok ⟨fun _ => none⟩ }

/-- A JetStream context on a broker that has no JetStream: every call fails. -/
def failingJetStream : JetStream :=
  { CreateOrUpdateStream := fun _ _ => some "nats: no responders available for request"
    Publish := fun _ _ _ => some "nats: no responders available for request"
    CreateOrUpdateConsumer := fun _ _ _ => .error "nats: no responders available for request" }

/-- A connection that accepts every call and answers every request with the bytes it
was sent. -/
def acceptingConn : Conn :=
  { Publish := fun _ _ => none
    Request := fun _ data _ => .ok data
    Subscribe := fun _ _ => none }

/-- A codec over strings: a string is encoded as the codes of its characters; the
string "chan" stands for a value that cannot be encoded. -/
def textCodec : Codec String :=
  { Marshal := fun v =>
      if v = "chan" then .error "json: unsupported type: chan int"
      else .ok (v.data.map Char.toNat)
    Unmarshal := fun _ _ => none }

/-- The text of `nats.ErrJetStreamNotEnabled` in the library. -/
def jetStreamNotEnabledText : String := "nats: jetstream not enabled"

/-- A library `nats.Connect` that succeeds with the accepting connection, as the
in-process server of the tests does. -/
def acceptingConnect : String → List NatsOption → Option Conn × GoError :=
  fun _ _ => (some acceptingConn, none)

/-- A library `IsConnected` that answers yes for every connection. -/
def alwaysConnected : Conn → Bool := fun _ => true

/-! ## Facts about strings and runs -/

theorem startsWith_iff (s sub : List Char) : startsWith s sub = true ↔ sub <+: s := by
  induction s generalizing sub with
  | nil =>
    cases sub with
    | nil => simp [startsWith]
    | cons d sub => simp [startsWith]
  | cons c s ih =>
    cases sub with
    | nil => simp [startsWith]
    | cons d sub =>
      simp only [startsWith, Bool.and_eq_true, beq_iff_eq, ih, List.cons_prefix_cons]
      constructor
      · rintro ⟨h1, h2⟩
        exact ⟨h1.symm, h2⟩
      · rintro ⟨h1, h2⟩
        exact ⟨h1.symm, h2⟩

/-- The function `stringsContains` decides the substring relation, as `strings.Contains`
does. -/
theorem containsChars_iff (s sub : List Char) : containsChars s sub = true ↔ sub <:+: s := by
  induction s with
  | nil =>
    cases sub with
    | nil => simp [containsChars, startsWith]
    | cons d sub => simp [containsChars, startsWith]
  | cons c s ih =>
    simp only [containsChars, Bool.or_eq_true, startsWith_iff, ih, List.infix_cons_iff]

theorem handleError_nil {α : Type} (notEnabled location : String) (logger : Option Logger) :
    handleError (α := α) notEnabled location none logger = ⟨[], .returned none⟩ := rfl

theorem handleError_logger {α : Type} (notEnabled location e : String) (logger : Logger) :
    handleError (α := α) notEnabled location (some e) (some logger) =
      if stringsContains e noResponders then
        ⟨[.LoggerError logger (location ++ ": " ++ notEnabled)],
          .returned (some (location ++ ": " ++ notEnabled))⟩
      else
        ⟨[.LoggerError logger (location ++ ": " ++ e)],
          .returned (some (location ++ ": " ++ e))⟩ := by
  simp only [handleError, Logger.Error, Run.andThen, Run.ret, List.append_nil]

theorem handleError_nil_logger {α : Type} (notEnabled location e : String) :
    handleError (α := α) notEnabled location (some e) none = ⟨[], .panicked⟩ := by
  simp only [handleError, Logger.Error, Run.andThen, Run.ret]
  split <;> rfl

theorem JSClient.checkConnections_ready (js : JetStream) (nc : Conn) (logger : Logger) :
    JSClient.checkConnections ⟨some js, some nc, some logger⟩ = none := rfl

/-! ## The error shim: classification -/

/-- C1: an error whose text contains "no responders available for request" is mapped
by `handleError`, for every location, to the error whose text is the location, ": " and
the text of `nats.ErrJetStreamNotEnabled`, whatever else the text of the error holds;
the same class comes back from `StreamCreateOrUpdate`, `Publish` and `Consume` when
their JetStream call fails with such an error. -/
theorem handleError_no_responders {α : Type} (notEnabled e : String)
    (h : stringsContains e noResponders = true) :
    (∀ (location : String) (logger : Logger),
      handleError (α := α) notEnabled location (some e) (some logger) =
        ⟨[.LoggerError logger (location ++ ": " ++ notEnabled)],
          .returned (some (location ++ ": " ++ notEnabled))⟩) ∧
    (∀ (js : JetStream) (nc : Conn) (logger : Logger) (ctx : Context) (cfg : StreamConfig),
      js.CreateOrUpdateStream ctx cfg = some e →
      (JSClient.StreamCreateOrUpdate (α := α) notEnabled ⟨some js, some nc, some logger⟩
        ctx cfg).out = .returned (some ("stream create update" ++ ": " ++ notEnabled))) ∧
    (∀ (json : Codec α) (js : JetStream) (nc : Conn) (logger : Logger) (ctx : Context)
        (subject : String) (data : α) (dataBytes : Bytes),
      json.Marshal data = .ok dataBytes → js.Publish ctx subject dataBytes = some e →
      (JSClient.Publish notEnabled json ⟨some js, some nc, some logger⟩
        ctx subject data).out = .returned (some ("publish" ++ ": " ++ notEnabled))) ∧
    (∀ (js : JetStream) (nc : Conn) (logger : Logger) (ctx : Context)
        (streamName subject : String) (handler : Handler) (opts : List ConsumerConfigOption),
      js.CreateOrUpdateConsumer ctx streamName (applyOptions opts (baselineConfig subject))
        = .error e →
      (JSClient.Consume (α := α) notEnabled ⟨some js, some nc, some logger⟩
        ctx streamName subject handler opts).out
        = .returned (some ("consume" ++ ": " ++ notEnabled))) := by
  refine ⟨?_, ?_, ?_, ?_⟩
  · intro location logger
    rw [handleError_logger, if_pos h]
  · intro js nc logger ctx cfg hjs
    simp only [JSClient.StreamCreateOrUpdate, JSClient.checkConnections_ready,
      JetStream.callCreateOrUpdateStream, Run.andThen, hjs, handleError_logger, if_pos h]
  · intro json js nc logger ctx subject data dataBytes hm hjs
    simp only [JSClient.Publish, JSClient.checkConnections_ready, jsonMarshal,
      JetStream.callPublish, Run.andThen, hm, hjs, handleError_logger, if_pos h]
  · intro js nc logger ctx streamName subject handler opts hjs
    simp only [JSClient.Consume, JSClient.checkConnections_ready,
      JetStream.callCreateOrUpdateConsumer, Run.andThen, hjs, handleError_logger, if_pos h]

theorem handleError_no_responders_witness :
    handleError (α := Nat) "nats: jetstream not enabled" "consume"
        (some "nats: no responders available for request") (some defaultLogger) =
      ⟨[.LoggerError defaultLogger "consume: nats: jetstream not enabled"],
        .returned (some "consume: nats: jetstream not enabled")⟩ :=
  (handleError_no_responders "nats: jetstream not enabled"
    "nats: no responders available for request" (by decide)).1 "consume" defaultLogger

/-- With a `nil` error `handleError` returns `nil` and calls no logger, whatever the
location and the logger (a `nil` logger included); with a non-nil error and a logger it
writes one entry and returns a non-nil error; and it returns `nil` exactly when its
error argument is `nil`. -/
theorem handleError_nil_iff {α : Type} (notEnabled location : String) :
    (∀ logger : Option Logger,
      handleError (α := α) notEnabled location none logger = ⟨[], .returned none⟩) ∧
    (∀ (e : String) (logger : Logger), ∃ t : String,
      handleError (α := α) notEnabled location (some e) (some logger) =
        ⟨[.LoggerError logger t], .returned (some t)⟩) ∧
    (∀ (err : GoError) (logger : Option Logger),
      (handleError (α := α) notEnabled location err logger).out = .returned none ↔
        err = none) := by
  refine ⟨fun _ => rfl, ?_, ?_⟩
  · intro e logger
    rw [handleError_logger]
    split
    · exact ⟨_, rfl⟩
    · exact ⟨_, rfl⟩
  · intro err logger
    cases err with
    | none => simp [handleError_nil]
    | some e =>
      cases logger with
      | none => simp [handleError_nil_logger]
      | some l =>
        rw [handleError_logger]
        split <;> simp

/-- With a logger present, an error whose text does not contain "no responders available for request" is
returned by `handleError` as the error whose text is the location, ": " and the text of
the original, so the original text is what is left of the result after the location and
the two characters of the separator. -/
theorem handleError_wraps {α : Type} (notEnabled location e : String) (logger : Logger)
    (h : stringsContains e noResponders = false) :
    handleError (α := α) notEnabled location (some e) (some logger) =
        ⟨[.LoggerError logger (location ++ ": " ++ e)],
          .returned (some (location ++ ": " ++ e))⟩ ∧
    ∃ t : String,
      (handleError (α := α) notEnabled location (some e) (some logger)).out
        = .returned (some t) ∧
      t.data = location.data ++ [':', ' '] ++ e.data ∧
      e.data <:+ t.data ∧
      String.mk (t.data.drop (location.length + 2)) = e := by
  have hrun : handleError (α := α) notEnabled location (some e) (some logger) =
      ⟨[.LoggerError logger (location ++ ": " ++ e)],
        .returned (some (location ++ ": " ++ e))⟩ := by
    rw [handleError_logger, h]
    rfl
  refine ⟨hrun, location ++ ": " ++ e, by rw [hrun], ?_, ?_, ?_⟩
  · simp [String.data_append]
  · exact ⟨location.data ++ [':', ' '], by simp [String.data_append]⟩
  · have hlen : location.length + 2 = (location.data ++ [':', ' ']).length := by
      rw [List.length_append]
      rfl
    have hdata : (location ++ ": " ++ e).data = (location.data ++ [':', ' ']) ++ e.data := by
      simp only [String.data_append]
    rw [hdata, hlen, List.drop_left]

theorem handleError_wraps_witness :
    handleError (α := Nat) "nats: jetstream not enabled" "publish"
        (some "nats: timeout") (some defaultLogger) =
      ⟨[.LoggerError defaultLogger "publish: nats: timeout"],
        .returned (some "publish: nats: timeout")⟩ :=
  (handleError_wraps "nats: jetstream not enabled" "publish" "nats: timeout"
    defaultLogger (by decide)).1

/-! ## The consumer configuration -/

theorem applyOptions_eq_fold (opts : List ConsumerConfigOption) (base : ConsumerConfig) :
    applyOptions opts base = foldNonNilOptions opts base := by
  induction opts generalizing base with
  | nil => rfl
  | cons opt opts ih =>
    cases opt with
    | none => simpa [applyOptions, foldNonNilOptions] using ih base
    | some f => simpa [applyOptions, foldNonNilOptions] using ih (f base)

theorem JSClient.checkConnections_eq_none (s : JSClient) (h : s.checkConnections = none) :
    ∃ js nc logger, s = ⟨some js, some nc, some logger⟩ := by
  obtain ⟨jsCtx, natsConnection, logger⟩ := s
  cases jsCtx <;> cases natsConnection <;> cases logger <;>
    simp [JSClient.checkConnections] at h
  exact ⟨_, _, _, rfl⟩

/-- C3: when its preconditions hold, `Consume` calls `CreateOrUpdateConsumer` exactly
once, first of all its calls, with the stream name it was given and with the
configuration obtained by folding the non-nil options, in the order supplied, over the
baseline (explicit acknowledgement, the subject as filter, back-off of 5 s and 10 s, at
most 4 deliveries, no durable name); without options that is the baseline itself, and
`nil` options are skipped. -/
theorem JSClient.Consume_config {α : Type} (notEnabled : String) (s : JSClient)
    (ctx : Context) (streamName subject : String) (handler : Handler)
    (opts : List ConsumerConfigOption) (h : s.checkConnections = none) :
    (∃ rest : List (Event α),
      (JSClient.Consume (α := α) notEnabled s ctx streamName subject handler opts).events =
        .CreateOrUpdateConsumer ctx streamName
          (foldNonNilOptions opts (baselineConfig subject)) :: rest ∧
      rest.filter Event.isCreateOrUpdateConsumer = []) ∧
    (JSClient.Consume (α := α) notEnabled s ctx streamName subject handler
        opts).events.filter Event.isCreateOrUpdateConsumer =
      [.CreateOrUpdateConsumer ctx streamName
        (foldNonNilOptions opts (baselineConfig subject))] ∧
    foldNonNilOptions [] (baselineConfig subject) = baselineConfig subject ∧
    baselineConfig subject =
      { AckPolicy := .AckExplicitPolicy, FilterSubject := subject,
        BackOff := [5000000000, 10000000000], MaxDeliver := 4, Durable := "" } ∧
    (∀ (pre post : List ConsumerConfigOption) (base : ConsumerConfig),
      foldNonNilOptions (pre ++ none :: post) base = foldNonNilOptions (pre ++ post) base) ∧
    (∀ (pre : List ConsumerConfigOption) (f : ConsumerConfig → ConsumerConfig)
        (base : ConsumerConfig),
      foldNonNilOptions (pre ++ [some f]) base = f (foldNonNilOptions pre base)) := by
  obtain ⟨js, nc, logger, rfl⟩ := JSClient.checkConnections_eq_none s h
  have hev : ∃ rest : List (Event α),
      (JSClient.Consume (α := α) notEnabled ⟨some js, some nc, some logger⟩ ctx streamName
        subject handler opts).events =
        .CreateOrUpdateConsumer ctx streamName
          (foldNonNilOptions opts (baselineConfig subject)) :: rest ∧
      rest.filter Event.isCreateOrUpdateConsumer = [] := by
    simp only [JSClient.Consume, JSClient.checkConnections_ready,
      JetStream.callCreateOrUpdateConsumer, Run.andThen, applyOptions_eq_fold]
    cases js.CreateOrUpdateConsumer ctx streamName
        (foldNonNilOptions opts (baselineConfig subject)) with
    | error e =>
      simp only [handleError_logger]
      split <;> exact ⟨_, rfl, rfl⟩
    | ok consumer =>
      simp only [Consumer.callConsume]
      cases consumer.Consume handler with
      | none => exact ⟨_, rfl, rfl⟩
      | some e =>
        simp only [handleError_logger]
        split <;> exact ⟨_, rfl, rfl⟩
  refine ⟨hev, ?_, rfl, rfl, ?_, ?_⟩
  · obtain ⟨rest, h1, h2⟩ := hev
    rw [h1, List.filter_cons_of_pos (by rfl), h2]
  · intro pre post base
    simp [foldNonNilOptions, List.filterMap_append]
  · intro pre f base
    simp [foldNonNilOptions, List.filterMap_append, List.foldl_append]

theorem JSClient.Consume_config_witness :
    JSClient.checkConnections ⟨some acceptingJetStream, some acceptingConn, some defaultLogger⟩
      = none ∧
    (JSClient.Consume (α := String) jetStreamNotEnabledText
        ⟨some acceptingJetStream, some acceptingConn, some defaultLogger⟩ 0 "stream_name"
        "stream_name.subject" 7 [none, WithDurableName "consumername"]).events.filter
        Event.isCreateOrUpdateConsumer =
      [.CreateOrUpdateConsumer 0 "stream_name"
        (foldNonNilOptions [none, WithDurableName "consumername"]
          (baselineConfig "stream_name.subject"))] :=
  ⟨rfl, (JSClient.Consume_config jetStreamNotEnabledText
    ⟨some acceptingJetStream, some acceptingConn, some defaultLogger⟩ 0 "stream_name"
    "stream_name.subject" 7 [none, WithDurableName "consumername"] rfl).2.1⟩

/-- C4: `WithDurableName a` is a non-nil option that sets `Durable` to `a` and leaves
`AckPolicy`, `FilterSubject`, `BackOff` and `MaxDeliver` as they were, so the 4 of the
baseline survives `WithDurableName "x"`; `WithDurableName a` followed by
`WithDurableName b` gives the configuration `WithDurableName b` gives alone, and
`Consume` then runs alike with either list of options. -/
theorem WithDurableName_spec (c : ConsumerConfig) (a b : String) :
    (∃ f, WithDurableName a = some f ∧ applyOptions [WithDurableName a] c = f c) ∧
    (applyOptions [WithDurableName a] c).Durable = a ∧
    (applyOptions [WithDurableName a] c).AckPolicy = c.AckPolicy ∧
    (applyOptions [WithDurableName a] c).FilterSubject = c.FilterSubject ∧
    (applyOptions [WithDurableName a] c).BackOff = c.BackOff ∧
    (applyOptions [WithDurableName a] c).MaxDeliver = c.MaxDeliver ∧
    (∀ subject : String,
      (applyOptions [WithDurableName "x"] (baselineConfig subject)).MaxDeliver = 4) ∧
    applyOptions [WithDurableName a, WithDurableName b] c
      = applyOptions [WithDurableName b] c ∧
    (applyOptions [WithDurableName a, WithDurableName b] c).Durable = b ∧
    (∀ (α : Type) (notEnabled : String) (s : JSClient) (ctx : Context)
        (streamName subject : String) (handler : Handler),
      JSClient.Consume (α := α) notEnabled s ctx streamName subject handler
          [WithDurableName a, WithDurableName b] =
        JSClient.Consume (α := α) notEnabled s ctx streamName subject handler
          [WithDurableName b]) := by
  refine ⟨⟨_, rfl, rfl⟩, rfl, rfl, rfl, rfl, rfl, fun _ => rfl, rfl, rfl, ?_⟩
  intro α notEnabled s ctx streamName subject handler
  rfl

/-! ## Missing handles -/

theorem ErrNilNatsConnObject_plain : stringsContains ErrNilNatsConnObject noResponders = false := by
  decide

theorem handleError_conn_missing {α : Type} (notEnabled location : String) (logger : Logger) :
    handleError (α := α) notEnabled location (some ErrNilNatsConnObject) (some logger) =
      ⟨[.LoggerError logger (location ++ ": " ++ ErrNilNatsConnObject)],
        .returned (some (location ++ ": " ++ ErrNilNatsConnObject))⟩ := by
  rw [handleError_logger, ErrNilNatsConnObject_plain]
  rfl

/-- C2: `NewJSClient` refuses a `nil` connection without calling anything.  On the
zero value of `JSClient` (no connection, no context, no logger) `checkConnections`
reports the missing connection, but `StreamCreateOrUpdate`, `Publish` and `Consume`
hand that error to `handleError` together with the `nil` logger and panic instead of
returning it.  No call reaches the JetStream collaborator on any client without a
connection, and with a logger present the three operations do return the connection
error, tagged with their location. -/
theorem JSClient.nil_connection {α : Type} (notEnabled : String) (json : Codec α)
    (jetstreamNew : Conn → Except String JetStream)
    (ctx : Context) (streamConfig : StreamConfig) (streamName subject : String) (data : α)
    (handler : Handler) (opts : List ConsumerConfigOption) :
    NewJSClient jetstreamNew none =
      (none, some "nats connection error: No nats connection object returned") ∧
    JSClient.checkConnections ⟨none, none, none⟩ = some ErrNilNatsConnObject ∧
    JSClient.StreamCreateOrUpdate (α := α) notEnabled ⟨none, none, none⟩ ctx streamConfig
      = ⟨[], .panicked⟩ ∧
    JSClient.Publish notEnabled json ⟨none, none, none⟩ ctx subject data
      = ⟨[], .panicked⟩ ∧
    JSClient.Consume (α := α) notEnabled ⟨none, none, none⟩ ctx streamName subject handler
      opts = ⟨[], .panicked⟩ ∧
    (∀ (jsCtx : Option JetStream) (logger : Option Logger),
      (JSClient.StreamCreateOrUpdate (α := α) notEnabled ⟨jsCtx, none, logger⟩ ctx
        streamConfig).events.filter Event.isJetStream = [] ∧
      (JSClient.Publish notEnabled json ⟨jsCtx, none, logger⟩ ctx subject
        data).events.filter Event.isJetStream = [] ∧
      (JSClient.Consume (α := α) notEnabled ⟨jsCtx, none, logger⟩ ctx streamName subject
        handler opts).events.filter Event.isJetStream = []) ∧
    (∀ (jsCtx : Option JetStream) (logger : Logger),
      JSClient.StreamCreateOrUpdate (α := α) notEnabled ⟨jsCtx, none, some logger⟩ ctx
          streamConfig =
        ⟨[.LoggerError logger ("stream create update" ++ ": " ++ ErrNilNatsConnObject)],
          .returned (some ("stream create update" ++ ": " ++ ErrNilNatsConnObject))⟩ ∧
      JSClient.Publish notEnabled json ⟨jsCtx, none, some logger⟩ ctx subject data =
        ⟨[.LoggerError logger ("publish" ++ ": " ++ ErrNilNatsConnObject)],
          .returned (some ("publish" ++ ": " ++ ErrNilNatsConnObject))⟩ ∧
      JSClient.Consume (α := α) notEnabled ⟨jsCtx, none, some logger⟩ ctx streamName
          subject handler opts =
        ⟨[.LoggerError logger ("consume" ++ ": " ++ ErrNilNatsConnObject)],
          .returned (some ("consume" ++ ": " ++ ErrNilNatsConnObject))⟩) := by
  have hcheck : ∀ (jsCtx : Option JetStream) (logger : Option Logger),
      JSClient.checkConnections ⟨jsCtx, none, logger⟩ = some ErrNilNatsConnObject :=
    fun _ _ => rfl
  refine ⟨rfl, rfl, ?_, ?_, ?_, ?_, ?_⟩
  · simp only [JSClient.StreamCreateOrUpdate, hcheck, handleError_nil_logger]
  · simp only [JSClient.Publish, hcheck, handleError_nil_logger]
  · simp only [JSClient.Consume, hcheck, handleError_nil_logger]
  · intro jsCtx logger
    simp only [JSClient.StreamCreateOrUpdate, JSClient.Publish, JSClient.Consume, hcheck]
    cases logger with
    | none => simp only [handleError_nil_logger, List.filter_nil, and_self]
    | some l =>
      simp only [handleError_conn_missing]
      exact ⟨rfl, rfl, rfl⟩
  · intro jsCtx logger
    simp only [JSClient.StreamCreateOrUpdate, JSClient.Publish, JSClient.Consume, hcheck,
      handleError_conn_missing, and_self]

/-- C7: on a `JSClient` with a connection and a JetStream context but a `nil` logger (as
`WithLogger` leaves it when given `nil`), `checkConnections` reports the missing logger,
and `StreamCreateOrUpdate`, `Publish` and `Consume` then call `handleError` with that
`nil` logger: they panic, before any call on the broker, and return nothing.  So does
`Publish` of `Basic`.  `Request` of `Basic`, which returns the error of the check as it
is, does return the missing-logger error. -/
theorem JSClient.nil_logger_panics {α : Type} (notEnabled : String) (json : Codec α)
    (js : JetStream) (nc : Conn) (logger : Option Logger)
    (ctx : Context) (streamConfig : StreamConfig) (streamName subject : String) (data : α)
    (ptr : α) (handler : Handler) (opts : List ConsumerConfigOption) :
    JSClient.WithLogger ⟨some js, some nc, logger⟩ none = ⟨some js, some nc, none⟩ ∧
    JSClient.checkConnections ⟨some js, some nc, none⟩ = some ErrNilLoggerObject ∧
    JSClient.StreamCreateOrUpdate (α := α) notEnabled ⟨some js, some nc, none⟩ ctx
      streamConfig = ⟨[], .panicked⟩ ∧
    JSClient.Publish notEnabled json ⟨some js, some nc, none⟩ ctx subject data
      = ⟨[], .panicked⟩ ∧
    JSClient.Consume (α := α) notEnabled ⟨some js, some nc, none⟩ ctx streamName subject
      handler opts = ⟨[], .panicked⟩ ∧
    Basic.checkConnections ⟨some nc, none⟩ = some ErrNilLoggerObject ∧
    Basic.Publish notEnabled json ⟨some nc, none⟩ ctx subject data = ⟨[], .panicked⟩ ∧
    Basic.Request notEnabled json ⟨some nc, none⟩ ctx subject data ptr
      = ⟨[], .returned (some ErrNilLoggerObject)⟩ := by
  have hcheck : JSClient.checkConnections ⟨some js, some nc, none⟩ = some ErrNilLoggerObject :=
    rfl
  have hbasic : Basic.checkConnections ⟨some nc, none⟩ = some ErrNilLoggerObject := rfl
  refine ⟨rfl, rfl, ?_, ?_, ?_, rfl, ?_, ?_⟩
  · simp only [JSClient.StreamCreateOrUpdate, hcheck, handleError_nil_logger]
  · simp only [JSClient.Publish, hcheck, handleError_nil_logger]
  · simp only [JSClient.Consume, hcheck, handleError_nil_logger]
  · simp only [Basic.Publish, hbasic, handleError_nil_logger]
  · simp only [Basic.Request, hbasic, Run.ret]

/-- C5: `Request` of `Basic` on a client without a connection (as `NewBasic` builds
from a `nil` connection) returns the error of
`checkConnections` as it is: the text carries no "request: " tag, `handleError` is not
called and no log entry is written.  `Publish` of `Basic`, on the same client, passes
the same error through `handleError`: one entry is logged and the tagged error comes
back. -/
theorem Basic.Request_skips_handleError {α : Type} (notEnabled : String) (json : Codec α)
    (logger : Logger) (ctx : Context) (subj : String) (requestData responseDataPtr : α) :
    NewBasic none = ⟨none, some defaultLogger⟩ ∧
    Basic.Request notEnabled json ⟨none, some logger⟩ ctx subj requestData responseDataPtr
      = ⟨[], .returned (some ErrNilNatsConnObject)⟩ ∧
    (Basic.Request notEnabled json ⟨none, some logger⟩ ctx subj requestData
      responseDataPtr).events.filter Event.isLog = [] ∧
    startsWith ErrNilNatsConnObject.data ("request" ++ ": ").data = false ∧
    Basic.Request notEnabled json ⟨none, some logger⟩ ctx subj requestData responseDataPtr
      ≠ handleError notEnabled "request" (some ErrNilNatsConnObject) (some logger) ∧
    Basic.Publish notEnabled json ⟨none, some logger⟩ ctx subj requestData =
      ⟨[.LoggerError logger ("publish" ++ ": " ++ ErrNilNatsConnObject)],
        .returned (some ("publish" ++ ": " ++ ErrNilNatsConnObject))⟩ := by
  have hbasic : Basic.checkConnections ⟨none, some logger⟩ = some ErrNilNatsConnObject := rfl
  have hreq : Basic.Request notEnabled json ⟨none, some logger⟩ ctx subj requestData
      responseDataPtr = ⟨[], .returned (some ErrNilNatsConnObject)⟩ := by
    simp only [Basic.Request, hbasic, Run.ret]
  refine ⟨rfl, hreq, by rw [hreq]; rfl, by decide, ?_, ?_⟩
  · rw [hreq, handleError_conn_missing]
    intro h
    have := congrArg Run.events h
    simp at this
  · simp only [Basic.Publish, hbasic, handleError_conn_missing]

/-! ## The steps of the durable publish -/

theorem JSClient.checkConnections_error (s : JSClient) (e : String)
    (h : s.checkConnections = some e) :
    stringsContains e noResponders = false := by
  obtain ⟨jsCtx, natsConnection, logger⟩ := s
  cases jsCtx <;> cases natsConnection <;> cases logger <;>
    simp only [JSClient.checkConnections, Option.isNone_none, Option.isNone_some, if_true,
      Bool.false_eq_true, if_false, Option.some.injEq, reduceCtorEq] at h <;>
    subst h <;>
    decide

/-- The method `Publish` of `JSClient` checks its preconditions, then encodes the data, then
calls the JetStream `Publish` with the subject and the encoded bytes, and stops at the
first step that fails, handing its error to `handleError` with the location "publish".
When the check fails, nothing is encoded and nothing is published; when the encoding
fails, the JetStream `Publish` is not called; the result is `nil` exactly when the
three steps succeed, and the run is then the encoding followed by one JetStream
`Publish` of exactly the encoded bytes to the subject. -/
theorem JSClient.Publish_steps {α : Type} (notEnabled : String) (json : Codec α)
    (s : JSClient) (ctx : Context) (subject : String) (data : α) :
    (∀ e : String, s.checkConnections = some e →
      JSClient.Publish notEnabled json s ctx subject data =
        handleError notEnabled "publish" (some e) s.logger ∧
      (JSClient.Publish notEnabled json s ctx subject data).events.filter
        Event.isMarshal = [] ∧
      (JSClient.Publish notEnabled json s ctx subject data).events.filter
        Event.isJSPublish = [] ∧
      (∀ logger : Logger, s.logger = some logger →
        JSClient.Publish notEnabled json s ctx subject data =
          ⟨[.LoggerError logger ("publish" ++ ": " ++ e)],
            .returned (some ("publish" ++ ": " ++ e))⟩)) ∧
    (∀ e : String, s.checkConnections = none → json.Marshal data = .error e →
      ∃ logger : Logger, s.logger = some logger ∧
        JSClient.Publish notEnabled json s ctx subject data =
          ⟨[.Marshal data, .LoggerError logger (taggedText notEnabled "publish" e)],
            .returned (some (taggedText notEnabled "publish" e))⟩) ∧
    (∀ (dataBytes : Bytes) (js : JetStream) (e : String),
      s.checkConnections = none → json.Marshal data = .ok dataBytes → s.jsCtx = some js →
      js.Publish ctx subject dataBytes = some e →
      ∃ logger : Logger, s.logger = some logger ∧
        JSClient.Publish notEnabled json s ctx subject data =
          ⟨[.Marshal data, .JSPublish ctx subject dataBytes,
              .LoggerError logger (taggedText notEnabled "publish" e)],
            .returned (some (taggedText notEnabled "publish" e))⟩) ∧
    ((JSClient.Publish notEnabled json s ctx subject data).out = .returned none ↔
      s.checkConnections = none ∧
      ∃ dataBytes, json.Marshal data = .ok dataBytes ∧
        ∃ js, s.jsCtx = some js ∧ js.Publish ctx subject dataBytes = none) ∧
    (∀ (dataBytes : Bytes) (js : JetStream),
      s.checkConnections = none → json.Marshal data = .ok dataBytes → s.jsCtx = some js →
      js.Publish ctx subject dataBytes = none →
      JSClient.Publish notEnabled json s ctx subject data =
        ⟨[.Marshal data, .JSPublish ctx subject dataBytes], .returned none⟩) := by
  refine ⟨?_, ?_, ?_, ?_, ?_⟩
  · intro e he
    have hrun : JSClient.Publish notEnabled json s ctx subject data =
        handleError notEnabled "publish" (some e) s.logger := by
      simp only [JSClient.Publish, he]
    have hplain := JSClient.checkConnections_error s e he
    refine ⟨hrun, ?_, ?_, ?_⟩
    · rw [hrun]
      cases s.logger with
      | none => rw [handleError_nil_logger]; rfl
      | some l => rw [handleError_logger, hplain]; rfl
    · rw [hrun]
      cases s.logger with
      | none => rw [handleError_nil_logger]; rfl
      | some l => rw [handleError_logger, hplain]; rfl
    · intro logger hl
      rw [hrun, hl, handleError_logger, hplain]
      rfl
  · intro e hc hm
    obtain ⟨js, nc, logger, rfl⟩ := JSClient.checkConnections_eq_none s hc
    refine ⟨logger, rfl, ?_⟩
    simp only [JSClient.Publish, JSClient.checkConnections_ready, jsonMarshal, Run.andThen,
      hm, handleError_logger, taggedText]
    split <;> rfl
  · intro dataBytes js e hc hm hjs hp
    obtain ⟨js2, nc, logger, rfl⟩ := JSClient.checkConnections_eq_none s hc
    simp only [Option.some.injEq] at hjs
    subst hjs
    refine ⟨logger, rfl, ?_⟩
    simp only [JSClient.Publish, JSClient.checkConnections_ready, jsonMarshal, Run.andThen,
      hm, JetStream.callPublish, hp, handleError_logger, taggedText]
    split <;> rfl
  · constructor
    · intro hout
      cases hc : s.checkConnections with
      | some e =>
        exfalso
        have hrun : JSClient.Publish notEnabled json s ctx subject data =
            handleError notEnabled "publish" (some e) s.logger := by
          simp only [JSClient.Publish, hc]
        rw [hrun] at hout
        cases hl : s.logger with
        | none => rw [hl, handleError_nil_logger] at hout; simp at hout
        | some l =>
          rw [hl, handleError_logger] at hout
          split at hout <;> simp at hout
      | none =>
        obtain ⟨js, nc, logger, rfl⟩ := JSClient.checkConnections_eq_none s hc
        refine ⟨rfl, ?_⟩
        simp only [JSClient.Publish, JSClient.checkConnections_ready, jsonMarshal,
          Run.andThen] at hout
        cases hm : json.Marshal data with
        | error e =>
          exfalso
          simp only [hm, handleError_logger] at hout
          split at hout <;> simp at hout
        | ok dataBytes =>
          refine ⟨dataBytes, rfl, js, rfl, ?_⟩
          simp only [hm, JetStream.callPublish] at hout
          cases hp : js.Publish ctx subject dataBytes with
          | none => rfl
          | some e =>
            exfalso
            simp only [hp, handleError_logger] at hout
            split at hout <;> simp at hout
    · rintro ⟨hc, dataBytes, hm, js, hjs, hp⟩
      obtain ⟨js2, nc, logger, rfl⟩ := JSClient.checkConnections_eq_none s hc
      simp only [Option.some.injEq] at hjs
      subst hjs
      simp only [JSClient.Publish, JSClient.checkConnections_ready, jsonMarshal, Run.andThen,
        hm, JetStream.callPublish, hp, Run.ret]
  · intro dataBytes js hc hm hjs hp
    obtain ⟨js2, nc, logger, rfl⟩ := JSClient.checkConnections_eq_none s hc
    simp only [Option.some.injEq] at hjs
    subst hjs
    simp only [JSClient.Publish, JSClient.checkConnections_ready, jsonMarshal, Run.andThen,
      hm, JetStream.callPublish, hp, Run.ret, List.append_nil]
    rfl

theorem JSClient.Publish_steps_witness :
    JSClient.checkConnections ⟨some acceptingJetStream, some acceptingConn, some defaultLogger⟩
      = none ∧
    textCodec.Marshal "hello" = .ok [104, 101, 108, 108, 111] ∧
    acceptingJetStream.Publish 0 "MAST.page_loaded" [104, 101, 108, 108, 111] = none ∧
    JSClient.Publish jetStreamNotEnabledText textCodec
        ⟨some acceptingJetStream, some acceptingConn, some defaultLogger⟩ 0
        "MAST.page_loaded" "hello" =
      ⟨[.Marshal "hello", .JSPublish 0 "MAST.page_loaded" [104, 101, 108, 108, 111]],
        .returned none⟩ :=
  ⟨rfl, rfl, rfl,
    (JSClient.Publish_steps jetStreamNotEnabledText textCodec
      ⟨some acceptingJetStream, some acceptingConn, some defaultLogger⟩ 0
      "MAST.page_loaded" "hello").2.2.2.2 [104, 101, 108, 108, 111] acceptingJetStream
      rfl rfl rfl rfl⟩

/-! ## Failures and what the caller receives -/

theorem handleError_tagged {α : Type} (notEnabled location e : String) (logger : Logger) :
    handleError (α := α) notEnabled location (some e) (some logger) =
      ⟨[.LoggerError logger (taggedText notEnabled location e)],
        .returned (some (taggedText notEnabled location e))⟩ := by
  rw [handleError_logger]
  unfold taggedText
  split <;> rfl

theorem Basic.basicCheck_ready (nc : Conn) (logger : Logger) :
    Basic.checkConnections ⟨some nc, some logger⟩ = none := rfl

theorem Basic.basicCheck_eq_none (b : Basic) (h : b.checkConnections = none) :
    ∃ nc logger, b = ⟨some nc, some logger⟩ := by
  obtain ⟨nconn, logger⟩ := b
  cases nconn <;> cases logger <;> simp [Basic.checkConnections] at h
  exact ⟨_, _, rfl⟩

/-- C6, as stated, fails: `Subscribe` of `Basic` on a client without a connection fails
its precondition check, logs the error, and returns; it has no result, so its caller
receives no error. -/
theorem Op.Subscribe_returns_no_error :
    Op.firstFailure textCodec (.BasicSubscribe ⟨none, some defaultLogger⟩ "greet.*" 7)
      = some ErrNilNatsConnObject ∧
    Op.run jetStreamNotEnabledText textCodec
        (.BasicSubscribe ⟨none, some defaultLogger⟩ "greet.*" 7) =
      ⟨[.LoggerError defaultLogger
          "subscribe: nats connection error: nats connection object not returned"],
        .returned none⟩ ∧
    ¬ (∀ op : Op String, Op.firstFailure textCodec op ≠ none →
        ∃ e : String,
          (Op.run jetStreamNotEnabledText textCodec op).out = .returned (some e)) := by
  have hrun : Op.run jetStreamNotEnabledText textCodec
        (.BasicSubscribe ⟨none, some defaultLogger⟩ "greet.*" 7) =
      ⟨[.LoggerError defaultLogger
          "subscribe: nats connection error: nats connection object not returned"],
        .returned none⟩ := by
    decide
  refine ⟨rfl, hrun, ?_⟩
  intro hall
  obtain ⟨e, he⟩ := hall (.BasicSubscribe ⟨none, some defaultLogger⟩ "greet.*" 7)
    (by decide)
  rw [hrun] at he
  simp at he

/-- C6, amended: when the first failing step of an operation (precondition check, JSON
step, call on the connection or on JetStream) fails with an error, `Request` of `Basic`
returns a non-nil error; on a client that has a logger, `Publish` of `Basic` and
`StreamCreateOrUpdate`, `Publish` and `Consume` of `JSClient` return a non-nil error;
and `Subscribe` of `Basic`, which has no result, writes one error entry, tagged
"subscribe", to the logger and gives its caller no error. -/
theorem Op.failure_reaches_caller {α : Type} (notEnabled : String) (json : Codec α)
    (op : Op α) (e : String) (hfail : Op.firstFailure json op = some e) :
    (op.isRequest = true →
      ∃ t : String, (Op.run notEnabled json op).out = .returned (some t)) ∧
    (∀ logger : Logger, op.logger = some logger → op.isSubscribe = false →
      ∃ t : String, (Op.run notEnabled json op).out = .returned (some t)) ∧
    (∀ logger : Logger, op.logger = some logger → op.isSubscribe = true →
      (Op.run notEnabled json op).out = .returned none ∧
      (Op.run notEnabled json op).events.filter Event.isLog =
        [.LoggerError logger (taggedText notEnabled "subscribe" e)]) := by
  cases op with
  | BasicPublish b ctx subject data =>
    refine ⟨fun h => by simp [Op.isRequest] at h, ?_, fun _ _ h => by simp [Op.isSubscribe] at h⟩
    intro logger hl _
    obtain ⟨nconn, lg⟩ := b
    simp only [Op.logger] at hl
    subst hl
    cases nconn with
    | none =>
      simp only [Op.run, Basic.Publish, Basic.checkConnections, Option.isNone_none, if_true,
          handleError_tagged]
      exact ⟨_, rfl⟩
    | some nc =>
      simp only [Op.firstFailure, Basic.basicCheck_ready] at hfail
      simp only [Op.run, Basic.Publish, Basic.basicCheck_ready, jsonMarshal,
        Run.andThen]
      cases hm : json.Marshal data with
      | error err =>
        simp only [handleError_tagged]
        exact ⟨_, rfl⟩
      | ok dataByte =>
        simp only [hm] at hfail
        simp only [Conn.callPublish, hfail, handleError_tagged]
        exact ⟨_, rfl⟩
  | BasicRequest b ctx subj requestData responseDataPtr =>
    have key : ∃ t : String,
        (Op.run notEnabled json
          (.BasicRequest b ctx subj requestData responseDataPtr)).out
          = .returned (some t) := by
      cases hc : b.checkConnections with
      | some err =>
        simp only [Op.run, Basic.Request, hc, Run.ret]
        exact ⟨_, rfl⟩
      | none =>
        obtain ⟨nc, lg, rfl⟩ := Basic.basicCheck_eq_none b hc
        simp only [Op.firstFailure, Basic.basicCheck_ready] at hfail
        simp only [Op.run, Basic.Request, Basic.basicCheck_ready, jsonMarshal,
          Run.andThen]
        cases hm : json.Marshal requestData with
        | error err =>
          simp only [handleError_tagged]
          exact ⟨_, rfl⟩
        | ok dataByte =>
          simp only [hm] at hfail
          simp only [Conn.callRequest]
          cases hr : nc.Request subj dataByte DefaultRequestTimeout with
          | error err =>
            simp only [handleError_tagged]
            exact ⟨_, rfl⟩
          | ok msgData =>
            simp only [hr] at hfail
            simp only [jsonUnmarshal, hfail, handleError_tagged]
            exact ⟨_, rfl⟩
    exact ⟨fun _ => key, fun _ _ _ => key, fun _ _ h => by simp [Op.isSubscribe] at h⟩
  | BasicSubscribe b subject handler =>
    refine ⟨fun h => by simp [Op.isRequest] at h, fun _ _ h => by simp [Op.isSubscribe] at h, ?_⟩
    intro logger hl _
    obtain ⟨nconn, lg⟩ := b
    simp only [Op.logger] at hl
    subst hl
    cases nconn with
    | none =>
      simp only [Op.firstFailure, Basic.checkConnections, Option.isNone_none, if_true,
        Option.some.injEq] at hfail
      subst hfail
      simp only [Op.run, Basic.Subscribe, Basic.checkConnections, Option.isNone_none, if_true,
        handleError_tagged, Run.andThen, Run.ret]
      exact ⟨trivial, rfl⟩
    | some nc =>
      simp only [Op.firstFailure, Basic.basicCheck_ready] at hfail
      simp only [Op.run, Basic.Subscribe, Basic.basicCheck_ready, Conn.callSubscribe,
        hfail, handleError_tagged, Run.andThen, Run.ret]
      exact ⟨trivial, rfl⟩
  | StreamCreateOrUpdate s ctx streamConfig =>
    refine ⟨fun h => by simp [Op.isRequest] at h, ?_, fun _ _ h => by simp [Op.isSubscribe] at h⟩
    intro logger hl _
    simp only [Op.logger] at hl
    cases hc : s.checkConnections with
    | some err =>
      simp only [Op.run, JSClient.StreamCreateOrUpdate, hc, hl, handleError_tagged]
      exact ⟨_, rfl⟩
    | none =>
      obtain ⟨js, nc, lg, rfl⟩ := JSClient.checkConnections_eq_none s hc
      simp only [Op.firstFailure, JSClient.checkConnections_ready] at hfail
      simp only [Op.run, JSClient.StreamCreateOrUpdate, JSClient.checkConnections_ready,
        JetStream.callCreateOrUpdateStream, Run.andThen, hfail, handleError_tagged]
      exact ⟨_, rfl⟩
  | JSPublish s ctx subject data =>
    refine ⟨fun h => by simp [Op.isRequest] at h, ?_, fun _ _ h => by simp [Op.isSubscribe] at h⟩
    intro logger hl _
    simp only [Op.logger] at hl
    cases hc : s.checkConnections with
    | some err =>
      simp only [Op.run, JSClient.Publish, hc, hl, handleError_tagged]
      exact ⟨_, rfl⟩
    | none =>
      obtain ⟨js, nc, lg, rfl⟩ := JSClient.checkConnections_eq_none s hc
      simp only [Op.firstFailure, JSClient.checkConnections_ready] at hfail
      simp only [Op.run, JSClient.Publish, JSClient.checkConnections_ready, jsonMarshal,
        Run.andThen]
      cases hm : json.Marshal data with
      | error err =>
        simp only [handleError_tagged]
        exact ⟨_, rfl⟩
      | ok dataBytes =>
        simp only [hm] at hfail
        simp only [JetStream.callPublish, hfail, handleError_tagged]
        exact ⟨_, rfl⟩
  | Consume s ctx streamName subject handler opts =>
    refine ⟨fun h => by simp [Op.isRequest] at h, ?_, fun _ _ h => by simp [Op.isSubscribe] at h⟩
    intro logger hl _
    simp only [Op.logger] at hl
    cases hc : s.checkConnections with
    | some err =>
      simp only [Op.run, JSClient.Consume, hc, hl, handleError_tagged]
      exact ⟨_, rfl⟩
    | none =>
      obtain ⟨js, nc, lg, rfl⟩ := JSClient.checkConnections_eq_none s hc
      simp only [Op.firstFailure, JSClient.checkConnections_ready] at hfail
      simp only [Op.run, JSClient.Consume, JSClient.checkConnections_ready,
        JetStream.callCreateOrUpdateConsumer, Run.andThen]
      cases hr : js.CreateOrUpdateConsumer ctx streamName
          (applyOptions opts (baselineConfig subject)) with
      | error err =>
        simp only [handleError_tagged]
        exact ⟨_, rfl⟩
      | ok consumer =>
        simp only [hr] at hfail
        simp only [Consumer.callConsume, hfail, handleError_tagged]
        exact ⟨_, rfl⟩

theorem Op.failure_reaches_caller_witness :
    Op.firstFailure textCodec
        (.JSPublish ⟨some failingJetStream, some acceptingConn, some defaultLogger⟩ 0
          "MAST.page_loaded" "hello")
      = some "nats: no responders available for request" ∧
    ∃ t : String,
      (Op.run jetStreamNotEnabledText textCodec
        (.JSPublish ⟨some failingJetStream, some acceptingConn, some defaultLogger⟩ 0
          "MAST.page_loaded" "hello")).out = .returned (some t) :=
  ⟨rfl, (Op.failure_reaches_caller jetStreamNotEnabledText textCodec
    (.JSPublish ⟨some failingJetStream, some acceptingConn, some defaultLogger⟩ 0
      "MAST.page_loaded" "hello") "nats: no responders available for request" rfl).2.1
    defaultLogger rfl rfl⟩

/-! ## Connecting -/

/-- The cases of `Connect`, one for each pair `nats.Connect` could hand back.  On the
pair without connection and without error, which the library does not produce,
`Connect` asks the
`nil` connection whether it is connected before it tests it for `nil`, and panics: it
returns neither the error its comment promises nor anything else.  On every other
outcome it returns one of the two pairs: no connection and a non-nil error when the
attempt failed or the connection is not connected, the connection and no error when
the attempt succeeded with a connection that is connected. -/
theorem Connect_nil_connection_panics
    (natsConnect : String → List NatsOption → Option Conn × GoError)
    (connected : Conn → Bool) (serverURL connName : String) (options : List NatsOption) :
    Connect (fun _ _ => (none, none)) connected serverURL connName options = .panicked ∧
    (natsConnect serverURL (options ++ [NatsOption.Name connName]) = (none, none) →
      Connect natsConnect connected serverURL connName options = .panicked) ∧
    (∀ (natsConn : Option Conn) (e : String),
      natsConnect serverURL (options ++ [NatsOption.Name connName]) = (natsConn, some e) →
      Connect natsConnect connected serverURL connName options =
        .returned (none, some ("nats connection error: " ++ e))) ∧
    (∀ c : Conn,
      natsConnect serverURL (options ++ [NatsOption.Name connName]) = (some c, none) →
      connected c = false →
      Connect natsConnect connected serverURL connName options =
        .returned (none, some "nats connection error: %!w(<nil>)")) ∧
    (∀ c : Conn,
      natsConnect serverURL (options ++ [NatsOption.Name connName]) = (some c, none) →
      connected c = true →
      Connect natsConnect connected serverURL connName options = .returned (some c, none)) ∧
    (∀ (natsConn : Option Conn) (err : GoError),
      Connect natsConnect connected serverURL connName options = .returned (natsConn, err) →
      (natsConn = none ∧ err ≠ none) ∨
      (err = none ∧ ∃ c : Conn, natsConn = some c ∧ connected c = true ∧
        natsConnect serverURL (options ++ [NatsOption.Name connName]) = (some c, none))) := by
  refine ⟨rfl, ?_, ?_, ?_, ?_, ?_⟩
  · intro h
    simp only [Connect, h, Conn.callIsConnected]
  · intro natsConn e h
    simp only [Connect, h, connectionErrorText]
  · intro c h hc
    simp only [Connect, h, Conn.callIsConnected, hc, connectionErrorText, Bool.not_false,
      if_true]
  · intro c h hc
    simp only [Connect, h, Conn.callIsConnected, hc, Bool.not_true, Bool.false_eq_true,
      if_false, Option.isNone_some]
  · intro natsConn err h
    rcases hr : natsConnect serverURL (options ++ [NatsOption.Name connName]) with ⟨nc, e⟩
    simp only [Connect, hr] at h
    cases e with
    | some e =>
      simp only [Outcome.returned.injEq, Prod.mk.injEq] at h
      exact Or.inl ⟨h.1.symm, by rw [← h.2]; simp⟩
    | none =>
      cases nc with
      | none => simp [Conn.callIsConnected] at h
      | some c =>
        simp only [Conn.callIsConnected] at h
        cases hc : connected c with
        | false =>
          simp only [hc, Bool.not_false, if_true, Outcome.returned.injEq, Prod.mk.injEq] at h
          exact Or.inl ⟨h.1.symm, by rw [← h.2]; simp⟩
        | true =>
          simp only [hc, Bool.not_true, Bool.false_eq_true, if_false, Option.isNone_some,
            Outcome.returned.injEq, Prod.mk.injEq] at h
          exact Or.inr ⟨h.2.symm, c, h.1.symm, hc, rfl⟩

/-- C11: on every pair the underlying `nats.Connect` returns (an error without a
connection, or a connection without an error), `Connect` returns, and what it returns
is either no connection with a non-nil error or a connected connection with no error,
never both `nil` nor both non-nil; the error is there exactly when the attempt failed
or the connection is not connected, and the connection is returned exactly when the
attempt succeeded with a connection that reports connected. -/
theorem Connect_outcome (natsConnect : String → List NatsOption → Option Conn × GoError)
    (connected : Conn → Bool) (serverURL connName : String) (options : List NatsOption)
    (h : isConnectOutcome (natsConnect serverURL (options ++ [NatsOption.Name connName]))
      = true) :
    ∃ (natsConn : Option Conn) (err : GoError),
      Connect natsConnect connected serverURL connName options = .returned (natsConn, err) ∧
      ((natsConn = none ∧ err ≠ none) ∨
        (err = none ∧ ∃ c : Conn, natsConn = some c ∧ connected c = true)) ∧
      (err ≠ none ↔
        ((natsConnect serverURL (options ++ [NatsOption.Name connName])).2 ≠ none ∨
          ∃ c : Conn,
            (natsConnect serverURL (options ++ [NatsOption.Name connName])).1 = some c ∧
              connected c = false)) ∧
      (∀ c : Conn, natsConn = some c ↔
        (natsConnect serverURL (options ++ [NatsOption.Name connName]) = (some c, none) ∧
          connected c = true)) := by
  rcases hr : natsConnect serverURL (options ++ [NatsOption.Name connName]) with ⟨nc, e⟩
  rw [hr] at h
  cases e with
  | some e =>
    refine ⟨none, some ("nats connection error: " ++ e), ?_, ?_, ?_, ?_⟩
    · simp only [Connect, hr, connectionErrorText]
    · exact Or.inl ⟨rfl, by simp⟩
    · simp
    · intro c
      simp
  | none =>
    cases nc with
    | none => simp [isConnectOutcome] at h
    | some c =>
      cases hc : connected c with
      | false =>
        refine ⟨none, some "nats connection error: %!w(<nil>)", ?_, ?_, ?_, ?_⟩
        · simp only [Connect, hr, Conn.callIsConnected, hc, connectionErrorText,
            Bool.not_false, if_true]
        · exact Or.inl ⟨rfl, by simp⟩
        · simp [hc]
        · intro c2
          constructor
          · intro h2
            simp at h2
          · rintro ⟨h2, h3⟩
            simp only [Prod.mk.injEq, Option.some.injEq, and_true] at h2
            subst h2
            rw [hc] at h3
            simp at h3
      | true =>
        refine ⟨some c, none, ?_, ?_, ?_, ?_⟩
        · simp only [Connect, hr, Conn.callIsConnected, hc, Bool.not_true,
            Bool.false_eq_true, if_false, Option.isNone_some]
        · exact Or.inr ⟨rfl, c, rfl, hc⟩
        · simp [hc]
        · intro c2
          constructor
          · intro h2
            simp only [Option.some.injEq] at h2
            subst h2
            exact ⟨rfl, hc⟩
          · rintro ⟨h2, _⟩
            simp only [Prod.mk.injEq, Option.some.injEq, and_true] at h2
            rw [h2]

theorem Connect_outcome_witness :
    isConnectOutcome (acceptingConnect "" ([] ++ [NatsOption.Name "name:unit_test_nat"]))
      = true ∧
    ∃ (natsConn : Option Conn) (err : GoError),
      Connect acceptingConnect alwaysConnected "" "name:unit_test_nat" []
        = .returned (natsConn, err) ∧
      ((natsConn = none ∧ err ≠ none) ∨
        (err = none ∧ ∃ c : Conn, natsConn = some c ∧ alwaysConnected c = true)) :=
  ⟨rfl, by
    obtain ⟨natsConn, err, h1, h2, _⟩ :=
      Connect_outcome acceptingConnect alwaysConnected "" "name:unit_test_nat" [] rfl
    exact ⟨natsConn, err, h1, h2⟩⟩

/-! ## The missing logger, seen from the shim and from the durable publish -/

/-- C9: the first half holds, with a `nil` error `handleError` returns `nil` and calls
nothing for every logger, the `nil` one included.  The converse fails on a `nil`
logger: with a non-nil error `handleError` calls `Error` on it and panics, so it
returns no error at all; `Publish` of `JSClient` makes exactly that call once
`WithLogger` has been given `nil`. -/
theorem handleError_nil_logger_returns_nothing {α : Type} (notEnabled location e : String)
    (json : Codec α) (js : JetStream) (nc : Conn) (logger : Option Logger) (ctx : Context)
    (subject : String) (data : α) :
    handleError (α := α) notEnabled location none none = ⟨[], .returned none⟩ ∧
    handleError (α := α) notEnabled location (some e) none = ⟨[], .panicked⟩ ∧
    (∀ r : GoError,
      (handleError (α := α) notEnabled location (some e) none).out ≠ .returned r) ∧
    JSClient.Publish notEnabled json (JSClient.WithLogger ⟨some js, some nc, logger⟩ none)
        ctx subject data =
      handleError notEnabled "publish" (some ErrNilLoggerObject) none := by
  have hpanic : handleError (α := α) notEnabled location (some e) none = ⟨[], .panicked⟩ :=
    handleError_nil_logger notEnabled location e
  have hcheck : JSClient.checkConnections ⟨some js, some nc, none⟩ = some ErrNilLoggerObject :=
    rfl
  refine ⟨rfl, hpanic, ?_, ?_⟩
  · intro r hr
    rw [hpanic] at hr
    simp at hr
  · simp only [JSClient.WithLogger, JSClient.Publish, hcheck]

/-- C10: the errors of the precondition checks do not contain "no responders available
for request", and they reach `handleError` together with a `nil` logger (from `Publish`
of `Basic` and of `JSClient` on a client without logger); `handleError` then panics on
the logger and returns no error, so nothing carries the original text back. -/
theorem handleError_nil_logger_wraps_nothing {α : Type} (notEnabled : String)
    (json : Codec α) (js : JetStream) (nc : Conn) (ctx : Context) (subject : String)
    (data : α) :
    stringsContains ErrNilLoggerObject noResponders = false ∧
    stringsContains ErrNilNatsConnObject noResponders = false ∧
    handleError (α := α) notEnabled "publish" (some ErrNilLoggerObject) none
      = ⟨[], .panicked⟩ ∧
    (handleError (α := α) notEnabled "publish" (some ErrNilLoggerObject) none).out ≠
      .returned (some ("publish" ++ ": " ++ ErrNilLoggerObject)) ∧
    Basic.Publish notEnabled json ⟨some nc, none⟩ ctx subject data =
      handleError notEnabled "publish" (some ErrNilLoggerObject) none ∧
    JSClient.Publish notEnabled json ⟨some js, some nc, none⟩ ctx subject data =
      handleError notEnabled "publish" (some ErrNilLoggerObject) none ∧
    JSClient.Publish notEnabled json ⟨none, none, none⟩ ctx subject data =
      handleError notEnabled "publish" (some ErrNilNatsConnObject) none := by
  have hpanic : handleError (α := α) notEnabled "publish" (some ErrNilLoggerObject) none
      = ⟨[], .panicked⟩ := handleError_nil_logger notEnabled "publish" ErrNilLoggerObject
  have hjs : JSClient.checkConnections ⟨some js, some nc, none⟩ = some ErrNilLoggerObject :=
    rfl
  have hzero : JSClient.checkConnections ⟨none, none, none⟩ = some ErrNilNatsConnObject :=
    rfl
  have hbasic : Basic.checkConnections ⟨some nc, none⟩ = some ErrNilLoggerObject := rfl
  refine ⟨by decide, by decide, hpanic, ?_, ?_, ?_, ?_⟩
  · rw [hpanic]
    simp
  · simp only [Basic.Publish, hbasic]
  · simp only [JSClient.Publish, hjs]
  · simp only [JSClient.Publish, hzero]

/-- C8: the order of the steps holds, but the first error is not always returned.  On a
client whose logger is `nil` the precondition check fails (with the missing-logger
error, or with the missing-connection error on the zero value), nothing is encoded and
nothing is published, and `Publish` then panics inside `handleError` instead of
returning that error; with a logger present the same failed check is returned,
tagged. -/
theorem JSClient.Publish_failed_check_panics {α : Type} (notEnabled : String)
    (json : Codec α) (js : JetStream) (nc : Conn) (logger : Logger) (ctx : Context)
    (subject : String) (data : α) :
    JSClient.checkConnections ⟨some js, some nc, none⟩ = some ErrNilLoggerObject ∧
    JSClient.Publish notEnabled json ⟨some js, some nc, none⟩ ctx subject data
      = ⟨[], .panicked⟩ ∧
    (∀ r : GoError,
      (JSClient.Publish notEnabled json ⟨some js, some nc, none⟩ ctx subject data).out
        ≠ .returned r) ∧
    JSClient.checkConnections ⟨none, none, none⟩ = some ErrNilNatsConnObject ∧
    JSClient.Publish notEnabled json ⟨none, none, none⟩ ctx subject data
      = ⟨[], .panicked⟩ ∧
    (∀ r : GoError,
      (JSClient.Publish notEnabled json ⟨none, none, none⟩ ctx subject data).out
        ≠ .returned r) ∧
    JSClient.Publish notEnabled json ⟨none, none, some logger⟩ ctx subject data =
      ⟨[.LoggerError logger ("publish" ++ ": " ++ ErrNilNatsConnObject)],
        .returned (some ("publish" ++ ": " ++ ErrNilNatsConnObject))⟩ := by
  have hjs : JSClient.checkConnections ⟨some js, some nc, none⟩ = some ErrNilLoggerObject :=
    rfl
  have hzero : JSClient.checkConnections ⟨none, none, none⟩ = some ErrNilNatsConnObject :=
    rfl
  have hlog : JSClient.checkConnections ⟨none, none, some logger⟩
      = some ErrNilNatsConnObject := rfl
  have h1 : JSClient.Publish notEnabled json ⟨some js, some nc, none⟩ ctx subject data
      = ⟨[], .panicked⟩ := by
    simp only [JSClient.Publish, hjs, handleError_nil_logger]
  have h2 : JSClient.Publish notEnabled json ⟨none, none, none⟩ ctx subject data
      = ⟨[], .panicked⟩ := by
    simp only [JSClient.Publish, hzero, handleError_nil_logger]
  refine ⟨rfl, h1, ?_, rfl, h2, ?_, ?_⟩
  · intro r hr
    rw [h1] at hr
    simp at hr
  · intro r hr
    rw [h2] at hr
    simp at hr
  · simp only [JSClient.Publish, hlog, handleError_conn_missing]

end Natstore
